import Mathlib

/-!
Verification of the user controller of `monoxane/dman`
(`internal/controller/users.go`) against its specification.

The five HTTP handlers (`HandleAuth`, `HandleUsers`, `HandleNewUser`,
`HandleUpdateUser`, `HandleDeleteUser`) are embedded shallowly.  The
collaborators that `users.go` imports but whose sources are not part of
this repository snapshot (the `auth`, `entity`, `utilities` packages,
the persistence layer and the gin framework defaults) are modelled from
the specification; each such definition carries a doc comment saying so.

Handlers are modelled as pure functions from an already-parsed request
(an `Option` body: `none` stands for a `BindJSON` failure), the
validated request identity, and the persistence state, to a
`HandlerResult` holding the outward HTTP response, the final
persistence state, and a trace of the collaborator calls the handler
performed (persistence reads/writes and credential-verifier/token
calls), in order.
-/

namespace Dman

/-- The durable user record (`entity.User`).
Modelled from the spec: the `entity` package is not in the snapshot; §3
gives the fields `ID`, `Username`, `PasswordHash`, `Role`, `Zones`.
`zones` is a Go slice (`[]string`), which can be `nil`; `none` models
the nil slice and `some zs` a non-nil slice with elements `zs`. -/
structure User where
  id : String
  username : String
  passwordHash : String
  role : String
  zones : Option (List String)
deriving Repr, DecidableEq

/-- Login request body (`entity.LoginBody`).
Modelled from the spec: credential claim is `Username` + plaintext
`Password` (§3). -/
structure LoginBody where
  username : String
  password : String
deriving Repr, DecidableEq

/-- Create-user request body (`entity.NewUserBody`).
Modelled from the spec: username, plaintext password, role, zones;
`zones` may be absent from the JSON (`none` = nil slice). -/
structure NewUserBody where
  username : String
  password : String
  role : String
  zones : Option (List String)
deriving Repr, DecidableEq

/-- Validated token claims (`auth` package).
Modelled from the spec: token claims carry `Username` and `Role` (§3). -/
structure Claims where
  username : String
  role : String
deriving Repr, DecidableEq

/-- Role constant `auth.ROLE_ADMIN`.
Modelled from the spec: the closed role set is `{Admin, ZoneAdmin}`
(§3); the concrete string value is not in the snapshot, only the
distinctness of the two roles matters. -/
def ROLE_ADMIN : String := "ADMIN"

/-- Role constant `auth.ROLE_ZONE_ADMIN`.  Modelled from the spec (§3). -/
def ROLE_ZONE_ADMIN : String := "ZONE_ADMIN"

/-- `auth.HasRole`.
Modelled from the spec (§4.3): given the request identity produced by
token validation (`none` when the bearer credential is absent or failed
validation, i.e. absent or malformed identity), the gate checks exact
role match. -/
def hasRole (identity : Option Claims) (required : String) : Bool :=
  match identity with
  | none => false
  | some c => c.role == required

/-- `auth.HashPassword`.
Modelled from the spec (§4.4, §4.1): produces a hash of the plaintext
for durable storage; may fail only on internal failure.  The model's
hash is a total injective tag of the plaintext (salting and
computational cost are outside the model), so the failure branch is
never taken but is kept in the handlers to mirror the source. -/
def hashPassword (plaintext : String) : Except Unit String :=
  .ok ("bcrypt$" ++ plaintext)

/-- `auth.ValidatePassword`.
Modelled from the spec (§4.1): verifies a plaintext against a stored
hash; a mismatch is a normal `false`, not an error. -/
def validatePassword (hash plaintext : String) : Bool :=
  hash == "bcrypt$" ++ plaintext

/-- `auth.GenerateToken`.
Modelled from the spec (§4.2): embeds identity and role into a signed
token string; may fail only on internal signing failure, which the
total model never exhibits (the handlers keep the branch). -/
def generateToken (username role : String) : Except Unit String :=
  .ok ("jwt$" ++ username ++ "$" ++ role)

/-- Outward JSON rendering of a stored `User`.
Modelled from the spec (§4.4): the serialization of `entity.User` is
decided by struct tags not in the snapshot; the spec requires the
password hash to be "excluded or redacted in any outward-facing
projection", so the rendered record carries every field except
`passwordHash`. -/
structure UserJson where
  id : String
  username : String
  role : String
  zones : Option (List String)
deriving Repr, DecidableEq

/-- The outward JSON projection of one stored record (see `UserJson`). -/
def userJson (u : User) : UserJson :=
  ⟨u.id, u.username, u.role, u.zones⟩

/-- Outward response body shapes. -/
inductive Body where
  /-- No body written by the handler. -/
  | empty : Body
  /-- Error body carrying the message given to `utilities.RESTError`. -/
  | errorMsg (message : String) : Body
  /-- `entity.LoginResponse`: username, token, zones, role. -/
  | login (username token : String) (zones : Option (List String)) (role : String) : Body
  /-- `entity.RESTResult` for the user list: rendered records + count. -/
  | userList (results : List UserJson) (totalResults : Nat) : Body
deriving Repr, DecidableEq

/-- An outward HTTP response: status code and body. -/
structure Response where
  status : Nat
  body : Body
deriving Repr, DecidableEq

/-- `utilities.RESTError`.
Modelled from the spec: the `utilities` package is not in the snapshot.
§6 lists error responses by status, and §7 requires e.g. the two
distinct 400 failures of the delete operation to be "surfaced
distinctly", so the human-readable message passed by the handlers is
part of the outward body; the final `err` argument of the Go function
is internal detail (logged), not echoed, so it does not appear here. -/
def RESTError (status : Nat) (message : String) : Response :=
  ⟨status, .errorMsg message⟩

/-- The persistence state: the collection of stored user records. -/
abbrev Store := List User

/-- Persistence errors the controller distinguishes
(`gorm.ErrDuplicatedKey`, `gorm.ErrRecordNotFound`). -/
inductive DbErr where
  | duplicateKey : DbErr
  | notFound : DbErr
deriving Repr, DecidableEq

/-- `persistance.GetUserByUsername`.
Modelled from the spec (§6): `GetUserByUsername(username) -> User |
NotFound`; lookup by login key. -/
def getUserByUsername (s : Store) (username : String) : Option User :=
  s.find? (fun u => u.username == username)

/-- `persistance.GetUserById`.
Modelled from the spec (§6): `GetUserById(id) -> User | NotFound`. -/
def getUserById (s : Store) (id : String) : Option User :=
  s.find? (fun u => u.id == id)

/-- `persistance.GetUsers`.
Modelled from the spec (§6): `GetUsers() -> collection of User`; the
source's I/O-failure branch (500) is unreachable in the pure model. -/
def getUsers (s : Store) : List User := s

/-- `persistance.CreateUser`.
Modelled from the spec (§6, §5): `CreateUser(User) -> () | DuplicateKey
| other`; username uniqueness is enforced atomically, a duplicate key
leaves the store unchanged. -/
def dbCreateUser (s : Store) (u : User) : Except DbErr Store :=
  if s.any (fun v => v.username == u.username) then
    .error .duplicateKey
  else
    .ok (s ++ [u])

/-- `persistance.SaveUser`.
Modelled from the spec (§6): `SaveUser(User) -> () | other`; persists
the given record in place of the stored record with the same `ID`. -/
def dbSaveUser (s : Store) (u : User) : Store :=
  s.map (fun v => if v.id == u.id then u else v)

/-- `persistance.DeleteUser`.
Modelled from the spec (§6): `DeleteUser(id) -> () | NotFound | other`;
deleting an absent `ID` is `NotFound` and leaves the store unchanged. -/
def dbDeleteUser (s : Store) (id : String) : Except DbErr Store :=
  if s.any (fun v => v.id == id) then
    .ok (s.filter (fun v => !(v.id == id)))
  else
    .error .notFound

/-- One collaborator call performed by a handler, in trace order. -/
inductive Effect where
  | getUserByUsername (username : String) : Effect
  | getUsers : Effect
  | createUser (u : User) : Effect
  | getUserById (id : String) : Effect
  | saveUser (u : User) : Effect
  | deleteUser (id : String) : Effect
  | hash (plaintext : String) : Effect
  | validate (hash plaintext : String) : Effect
  | token (username role : String) : Effect
deriving Repr, DecidableEq

/-- Result of running a handler: outward response, final persistence
state, and the ordered trace of collaborator calls performed. -/
structure HandlerResult where
  response : Response
  store : Store
  effects : List Effect
deriving Repr, DecidableEq

/-- `Controller.HandleAuth` (users.go lines 19–53).
`body?` is the outcome of `BindJSON` (`none` = bind error). -/
def HandleAuth (s : Store) (body? : Option LoginBody) : HandlerResult :=
  match body? with
  | none => ⟨RESTError 400 "invalid body", s, []⟩
  | some payload =>
    match getUserByUsername s payload.username with
    | none =>
      ⟨RESTError 401 "user not found", s, [.getUserByUsername payload.username]⟩
    | some dbUser =>
      if !(validatePassword dbUser.passwordHash payload.password) then
        ⟨RESTError 401 "invalid password", s,
          [.getUserByUsername payload.username,
           .validate dbUser.passwordHash payload.password]⟩
      else
        match generateToken dbUser.username dbUser.role with
        | .error _ =>
          ⟨RESTError 500 "unable to generate token", s,
            [.getUserByUsername payload.username,
             .validate dbUser.passwordHash payload.password,
             .token dbUser.username dbUser.role]⟩
        | .ok tok =>
          ⟨⟨200, .login dbUser.username tok dbUser.zones dbUser.role⟩, s,
            [.getUserByUsername payload.username,
             .validate dbUser.passwordHash payload.password,
             .token dbUser.username dbUser.role]⟩

/-- The uniform refusal message every admin-gated handler passes to
`utilities.RESTError` (users.go lines 61, 83, 135, 169). -/
def notPermittedMsg : String :=
  "user does not have permission to access this resource"

/-- `Controller.HandleUsers` (users.go lines 59–75).
`identity` is the validated request identity consulted by
`auth.HasRole`.  The source's store-failure branch (500) is unreachable
because the modelled `getUsers` is pure. -/
def HandleUsers (identity : Option Claims) (s : Store) : HandlerResult :=
  if !(hasRole identity ROLE_ADMIN) then
    ⟨RESTError 401 notPermittedMsg, s, []⟩
  else
    ⟨⟨200, .userList ((getUsers s).map userJson) (getUsers s).length⟩, s,
      [.getUsers]⟩

/-- `Controller.HandleNewUser` (users.go lines 81–127).
`newId` is the fresh identifier `uuid.NewString()` would produce.  On
full success the Go handler writes nothing; the transport framework
(gin) then emits its implicit status 200 with an empty body. -/
def HandleNewUser (identity : Option Claims) (s : Store)
    (body? : Option NewUserBody) (newId : String) : HandlerResult :=
  if !(hasRole identity ROLE_ADMIN) then
    ⟨RESTError 401 notPermittedMsg, s, []⟩
  else
    match body? with
    | none => ⟨RESTError 400 "invalid request body", s, []⟩
    | some payload =>
      if payload.role != ROLE_ADMIN && payload.role != ROLE_ZONE_ADMIN then
        ⟨RESTError 400 "invalid role", s, []⟩
      else
        match hashPassword payload.password with
        | .error _ =>
          ⟨RESTError 500 "unable to hash password", s, [.hash payload.password]⟩
        | .ok hashed =>
          let zones := match payload.zones with
            | none => some []
            | some zs => some zs
          let user : User := ⟨newId, payload.username, hashed, payload.role, zones⟩
          match dbCreateUser s user with
          | .error .duplicateKey =>
            ⟨RESTError 409 "username in use", s,
              [.hash payload.password, .createUser user]⟩
          | .error _ =>
            ⟨RESTError 500 "unable to store user", s,
              [.hash payload.password, .createUser user]⟩
          | .ok s2 =>
            ⟨⟨200, .empty⟩, s2, [.hash payload.password, .createUser user]⟩

/-- `Controller.HandleUpdateUser` (users.go lines 133–161).
`id` is the `:id` path parameter; the body is bound into a full
`entity.User` value of which only `Zones` is read.  On success the
handler writes nothing and gin emits its implicit 200. -/
def HandleUpdateUser (identity : Option Claims) (s : Store) (id : String)
    (body? : Option User) : HandlerResult :=
  if !(hasRole identity ROLE_ADMIN) then
    ⟨RESTError 401 notPermittedMsg, s, []⟩
  else
    match body? with
    | none => ⟨RESTError 400 "invalid request body", s, []⟩
    | some payload =>
      match getUserById s id with
      | none => ⟨RESTError 400 "user does not exist", s, [.getUserById id]⟩
      | some user =>
        let updated : User :=
          ⟨user.id, user.username, user.passwordHash, user.role, payload.zones⟩
        ⟨⟨200, .empty⟩, dbSaveUser s updated,
          [.getUserById id, .saveUser updated]⟩

/-- `Controller.HandleDeleteUser` (users.go lines 167–186).
`id` is the `:id` path parameter.  On success the handler writes
nothing and gin emits its implicit 200. -/
def HandleDeleteUser (identity : Option Claims) (s : Store) (id : String) :
    HandlerResult :=
  if !(hasRole identity ROLE_ADMIN) then
    ⟨RESTError 401 notPermittedMsg, s, []⟩
  else
    match dbDeleteUser s id with
    | .error .notFound =>
      ⟨RESTError 400 "user does not exist", s, [.deleteUser id]⟩
    | .error _ =>
      ⟨RESTError 400 "unable to delete user", s, [.deleteUser id]⟩
    | .ok s2 =>
      ⟨⟨200, .empty⟩, s2, [.deleteUser id]⟩

/-! ## Concrete fixtures -/

/-- A store holding one admin user `alice` whose password is `pw1`. -/
def aliceStore : Store :=
  [⟨"id1", "alice", "bcrypt$pw1", ROLE_ADMIN, some ["z1"]⟩]

/-! ## Theorems -/

/-- C1: the claim states that the authentication-failure response for an
unknown username is identical to the one for a known username with a
wrong password.  On the code this is false: both responses carry status
401, but the bodies differ — `"user not found"` versus
`"invalid password"` — so the caller can distinguish the two cases and
enumerate usernames.  Evaluated here on a concrete store: `bob` is
unknown, `alice` exists with password `pw1`. -/
theorem handleAuth_unknown_vs_wrong_password_distinguishable :
    (HandleAuth aliceStore (some ⟨"bob", "pw1"⟩)).response.status = 401 ∧
    (HandleAuth aliceStore (some ⟨"alice", "wrong"⟩)).response.status = 401 ∧
    (HandleAuth aliceStore (some ⟨"bob", "pw1"⟩)).response =
      RESTError 401 "user not found" ∧
    (HandleAuth aliceStore (some ⟨"alice", "wrong"⟩)).response =
      RESTError 401 "invalid password" ∧
    (HandleAuth aliceStore (some ⟨"bob", "pw1"⟩)).response ≠
      (HandleAuth aliceStore (some ⟨"alice", "wrong"⟩)).response := by
  decide

/-- C10: when the username of a login request is not found in the store,
the 401 failure is produced after the lookup alone — the trace contains
no password validation and no token generation; and in any run of the
handler, a validation or token-generation effect occurs only when a
record for the request's username exists. -/
theorem handleAuth_unknown_user_skips_crypto (s : Store) (p : LoginBody)
    (habs : getUserByUsername s p.username = none) :
    (HandleAuth s (some p)).response = RESTError 401 "user not found" ∧
    (HandleAuth s (some p)).effects = [.getUserByUsername p.username] ∧
    (∀ h pw, Effect.validate h pw ∉ (HandleAuth s (some p)).effects) ∧
    (∀ un r, Effect.token un r ∉ (HandleAuth s (some p)).effects) ∧
    (∀ s2 b2 h pw, Effect.validate h pw ∈ (HandleAuth s2 b2).effects →
      ∃ b, b2 = some b ∧ (getUserByUsername s2 b.username).isSome) ∧
    (∀ s2 b2 un r, Effect.token un r ∈ (HandleAuth s2 b2).effects →
      ∃ b, b2 = some b ∧ (getUserByUsername s2 b.username).isSome) := by
  have hmain : HandleAuth s (some p) =
      ⟨RESTError 401 "user not found", s, [.getUserByUsername p.username]⟩ := by
    simp [HandleAuth, habs]
  refine ⟨by rw [hmain], by rw [hmain], ?_, ?_, ?_, ?_⟩
  · intro h pw
    rw [hmain]
    simp
  · intro un r
    rw [hmain]
    simp
  · intro s2 b2 h pw hmem
    match b2 with
    | none => simp [HandleAuth] at hmem
    | some b =>
      cases hlook : getUserByUsername s2 b.username with
      | none => simp [HandleAuth, hlook] at hmem
      | some u => exact ⟨b, rfl, by simp [hlook]⟩
  · intro s2 b2 un r hmem
    match b2 with
    | none => simp [HandleAuth] at hmem
    | some b =>
      cases hlook : getUserByUsername s2 b.username with
      | none => simp [HandleAuth, hlook] at hmem
      | some u => exact ⟨b, rfl, by simp [hlook]⟩

/-- Witness for C10 at a concrete input: `bob` is absent from
`aliceStore`. -/
theorem handleAuth_unknown_user_skips_crypto_witness :
    getUserByUsername aliceStore "bob" = none ∧
    (HandleAuth aliceStore (some ⟨"bob", "pw"⟩)).response =
      RESTError 401 "user not found" ∧
    (HandleAuth aliceStore (some ⟨"bob", "pw"⟩)).effects =
      [.getUserByUsername "bob"] :=
  ⟨by decide,
   (handleAuth_unknown_user_skips_crypto aliceStore ⟨"bob", "pw"⟩ (by decide)).1,
   (handleAuth_unknown_user_skips_crypto aliceStore ⟨"bob", "pw"⟩ (by decide)).2.1⟩

/-- C2: every admin-gated handler (list, create, update zones, delete),
given an identity that fails the admin check — absent (`none`,
covering missing or malformed credentials) or carrying any role other
than `Admin` — returns the one fixed refusal `401 notPermittedMsg`,
leaves the store untouched and performs no persistence call at all.
The refusal is a constant, so it cannot distinguish "no credential"
from "wrong role". -/
theorem admin_gate_uniform_refusal_no_persistence
    (i : Option Claims) (hfail : hasRole i ROLE_ADMIN = false)
    (s : Store) (nb : Option NewUserBody) (ub : Option User)
    (uid did nid : String) :
    HandleUsers i s = ⟨RESTError 401 notPermittedMsg, s, []⟩ ∧
    HandleNewUser i s nb nid = ⟨RESTError 401 notPermittedMsg, s, []⟩ ∧
    HandleUpdateUser i s uid ub = ⟨RESTError 401 notPermittedMsg, s, []⟩ ∧
    HandleDeleteUser i s did = ⟨RESTError 401 notPermittedMsg, s, []⟩ := by
  refine ⟨?_, ?_, ?_, ?_⟩ <;>
    simp [HandleUsers, HandleNewUser, HandleUpdateUser, HandleDeleteUser, hfail]

/-- Witness for C2 at concrete inputs: an absent identity and a
`ZoneAdmin` identity receive the same refusal on the list operation. -/
theorem admin_gate_uniform_refusal_no_persistence_witness :
    hasRole none ROLE_ADMIN = false ∧
    hasRole (some ⟨"zoe", ROLE_ZONE_ADMIN⟩) ROLE_ADMIN = false ∧
    HandleUsers none aliceStore = ⟨RESTError 401 notPermittedMsg, aliceStore, []⟩ ∧
    HandleUsers (some ⟨"zoe", ROLE_ZONE_ADMIN⟩) aliceStore =
      ⟨RESTError 401 notPermittedMsg, aliceStore, []⟩ :=
  ⟨by decide, by decide,
   (admin_gate_uniform_refusal_no_persistence none (by decide) aliceStore
      none none "u" "d" "n").1,
   (admin_gate_uniform_refusal_no_persistence (some ⟨"zoe", ROLE_ZONE_ADMIN⟩)
      (by decide) aliceStore none none "u" "d" "n").1⟩

/-- C3: a create-user request whose username is already stored fails
with 409 `"username in use"` (the conflict outcome) and the final store
equals the initial one, so the pre-existing record is byte-for-byte
unchanged and no partial record exists. -/
theorem handleNewUser_duplicate_username_conflict
    (i : Option Claims) (hadm : hasRole i ROLE_ADMIN = true)
    (s : Store) (p : NewUserBody) (nid : String)
    (hrole : p.role = ROLE_ADMIN ∨ p.role = ROLE_ZONE_ADMIN)
    (hdup : s.any (fun v => v.username == p.username) = true) :
    (HandleNewUser i s (some p) nid).response = RESTError 409 "username in use" ∧
    (HandleNewUser i s (some p) nid).store = s := by
  cases hrole with
  | inl h =>
    constructor <;> simp [HandleNewUser, hadm, h, hashPassword, dbCreateUser, hdup]
  | inr h =>
    constructor <;> simp [HandleNewUser, hadm, h, hashPassword, dbCreateUser, hdup]

/-- Witness for C3: creating a second `alice` against `aliceStore`
conflicts and leaves the store unchanged. -/
theorem handleNewUser_duplicate_username_conflict_witness :
    hasRole (some ⟨"root", ROLE_ADMIN⟩) ROLE_ADMIN = true ∧
    aliceStore.any (fun v => v.username == "alice") = true ∧
    (HandleNewUser (some ⟨"root", ROLE_ADMIN⟩) aliceStore
        (some ⟨"alice", "pw2", ROLE_ZONE_ADMIN, none⟩) "id2").response =
      RESTError 409 "username in use" ∧
    (HandleNewUser (some ⟨"root", ROLE_ADMIN⟩) aliceStore
        (some ⟨"alice", "pw2", ROLE_ZONE_ADMIN, none⟩) "id2").store = aliceStore :=
  ⟨by decide, by decide,
   (handleNewUser_duplicate_username_conflict (some ⟨"root", ROLE_ADMIN⟩)
      (by decide) aliceStore ⟨"alice", "pw2", ROLE_ZONE_ADMIN, none⟩ "id2"
      (Or.inr rfl) (by decide)).1,
   (handleNewUser_duplicate_username_conflict (some ⟨"root", ROLE_ADMIN⟩)
      (by decide) aliceStore ⟨"alice", "pw2", ROLE_ZONE_ADMIN, none⟩ "id2"
      (Or.inr rfl) (by decide)).2⟩

/-- C4: the claim states the stored `Zones` field is never a nil/null
value after any lifecycle operation.  Evaluated at a concrete failing
input: a zone-set update whose JSON body omits `zones` (so the bound
payload carries the nil slice, `none`) succeeds with the implicit 200
and stores `alice` with `zones = none` — the update path copies the
payload's nil slice verbatim.  By contrast the create path normalizes
an absent `zones` to the non-nil empty set `some []`, which is the
invariant the update path fails to maintain. -/
theorem handleUpdateUser_stores_nil_zones :
    (HandleUpdateUser (some ⟨"root", ROLE_ADMIN⟩) aliceStore "id1"
        (some ⟨"", "", "", "", none⟩)).response = ⟨200, .empty⟩ ∧
    (HandleUpdateUser (some ⟨"root", ROLE_ADMIN⟩) aliceStore "id1"
        (some ⟨"", "", "", "", none⟩)).store =
      [⟨"id1", "alice", "bcrypt$pw1", ROLE_ADMIN, none⟩] ∧
    (HandleNewUser (some ⟨"root", ROLE_ADMIN⟩) []
        (some ⟨"bob", "pw", ROLE_ADMIN, none⟩) "id9").store =
      [⟨"id9", "bob", "bcrypt$pw", ROLE_ADMIN, some []⟩] := by
  decide

/-- C5: deleting an id that no stored record carries is refused with
400 `"user does not exist"` — the persistence layer reports not-found,
the handler surfaces it rather than succeeding silently — and the store
is unchanged. -/
theorem handleDeleteUser_unknown_id_not_found
    (i : Option Claims) (hadm : hasRole i ROLE_ADMIN = true)
    (s : Store) (id : String)
    (habs : s.any (fun v => v.id == id) = false) :
    dbDeleteUser s id = .error .notFound ∧
    (HandleDeleteUser i s id).response = RESTError 400 "user does not exist" ∧
    (HandleDeleteUser i s id).store = s := by
  have hdel : dbDeleteUser s id = .error .notFound := by
    simp [dbDeleteUser, habs]
  refine ⟨hdel, ?_, ?_⟩ <;> simp [HandleDeleteUser, hadm, hdel]

/-- Witness for C5: deleting the absent id `id7` from `aliceStore`. -/
theorem handleDeleteUser_unknown_id_not_found_witness :
    hasRole (some ⟨"root", ROLE_ADMIN⟩) ROLE_ADMIN = true ∧
    aliceStore.any (fun v => v.id == "id7") = false ∧
    (HandleDeleteUser (some ⟨"root", ROLE_ADMIN⟩) aliceStore "id7").response =
      RESTError 400 "user does not exist" ∧
    (HandleDeleteUser (some ⟨"root", ROLE_ADMIN⟩) aliceStore "id7").store =
      aliceStore :=
  ⟨by decide, by decide,
   (handleDeleteUser_unknown_id_not_found (some ⟨"root", ROLE_ADMIN⟩)
      (by decide) aliceStore "id7" (by decide)).2.1,
   (handleDeleteUser_unknown_id_not_found (some ⟨"root", ROLE_ADMIN⟩)
      (by decide) aliceStore "id7" (by decide)).2.2⟩

/-- C6: a successful zone-set update on an existing id saves a record
whose `zones` is exactly the payload's zone set (wholesale replacement,
no merge) and whose `id`, `username`, `passwordHash` and `role` are
those of the fetched record; every stored record with a different id is
left unchanged. -/
theorem handleUpdateUser_replaces_zones_wholesale
    (i : Option Claims) (hadm : hasRole i ROLE_ADMIN = true)
    (s : Store) (id : String) (p u : User)
    (hfound : getUserById s id = some u) :
    (HandleUpdateUser i s id (some p)).response = ⟨200, .empty⟩ ∧
    (HandleUpdateUser i s id (some p)).store =
      s.map (fun v => if v.id == u.id
        then ⟨u.id, u.username, u.passwordHash, u.role, p.zones⟩ else v) ∧
    (HandleUpdateUser i s id (some p)).effects =
      [.getUserById id,
       .saveUser ⟨u.id, u.username, u.passwordHash, u.role, p.zones⟩] := by
  refine ⟨?_, ?_, ?_⟩ <;> simp [HandleUpdateUser, hadm, hfound, dbSaveUser]

/-- Witness for C6: replacing `alice`'s zones `["z1"]` by `["z2", "z3"]`
keeps every other field. -/
theorem handleUpdateUser_replaces_zones_wholesale_witness :
    getUserById aliceStore "id1" =
      some ⟨"id1", "alice", "bcrypt$pw1", ROLE_ADMIN, some ["z1"]⟩ ∧
    (HandleUpdateUser (some ⟨"root", ROLE_ADMIN⟩) aliceStore "id1"
        (some ⟨"x", "y", "z", "w", some ["z2", "z3"]⟩)).store =
      aliceStore.map (fun v => if v.id == "id1"
        then ⟨"id1", "alice", "bcrypt$pw1", ROLE_ADMIN, some ["z2", "z3"]⟩
        else v) :=
  ⟨by decide,
   (handleUpdateUser_replaces_zones_wholesale (some ⟨"root", ROLE_ADMIN⟩)
      (by decide) aliceStore "id1" ⟨"x", "y", "z", "w", some ["z2", "z3"]⟩
      ⟨"id1", "alice", "bcrypt$pw1", ROLE_ADMIN, some ["z1"]⟩ (by decide)).2.1⟩

/-- C7: a create-user request whose role is outside the closed set
`{ROLE_ADMIN, ROLE_ZONE_ADMIN}` is rejected with 400 `"invalid role"`,
the store is unchanged and the trace is empty — in particular nothing
is hashed and no persistence call happens.  Conversely any request
whose role is in the set passes this validation and reaches the
password-hashing step. -/
theorem handleNewUser_invalid_role_rejected
    (i : Option Claims) (hadm : hasRole i ROLE_ADMIN = true)
    (s : Store) (p : NewUserBody) (nid : String)
    (hbad : p.role ≠ ROLE_ADMIN ∧ p.role ≠ ROLE_ZONE_ADMIN) :
    HandleNewUser i s (some p) nid = ⟨RESTError 400 "invalid role", s, []⟩ ∧
    ∀ q : NewUserBody, q.role = ROLE_ADMIN ∨ q.role = ROLE_ZONE_ADMIN →
      Effect.hash q.password ∈ (HandleNewUser i s (some q) nid).effects := by
  constructor
  · simp [HandleNewUser, hadm, hbad.1, hbad.2]
  · intro q hq
    have hrole : (q.role != ROLE_ADMIN && q.role != ROLE_ZONE_ADMIN) = false := by
      cases hq with
      | inl h => simp [h]
      | inr h => simp [h]
    simp only [HandleNewUser, hadm, hrole, Bool.not_true, Bool.false_eq_true,
      if_false, hashPassword]
    split <;> simp

/-- Witness for C7: the role `"intern"` is rejected against the empty
store, while `ROLE_ZONE_ADMIN` reaches hashing. -/
theorem handleNewUser_invalid_role_rejected_witness :
    hasRole (some ⟨"root", ROLE_ADMIN⟩) ROLE_ADMIN = true ∧
    ("intern" ≠ ROLE_ADMIN ∧ "intern" ≠ ROLE_ZONE_ADMIN) ∧
    HandleNewUser (some ⟨"root", ROLE_ADMIN⟩) []
        (some ⟨"carol", "pw", "intern", none⟩) "id3" =
      ⟨RESTError 400 "invalid role", [], []⟩ :=
  ⟨by decide, by decide,
   (handleNewUser_invalid_role_rejected (some ⟨"root", ROLE_ADMIN⟩) (by decide)
      [] ⟨"carol", "pw", "intern", none⟩ "id3" (by decide)).1⟩

/-- C8: a successful list-users call returns exactly the `userJson`
projections of the stored records — a projection with no password-hash
field — and the response is invariant under any change of the stored
password hashes: two stores with the same hash-erased projections
produce identical responses, so the stored hash never reaches the
caller. -/
theorem handleUsers_redacts_password_hash
    (i : Option Claims) (hadm : hasRole i ROLE_ADMIN = true)
    (s s2 : Store) (hsame : s.map userJson = s2.map userJson) :
    (HandleUsers i s).response = ⟨200, .userList (s.map userJson) s.length⟩ ∧
    (HandleUsers i s).response = (HandleUsers i s2).response := by
  have hlen : s.length = s2.length := by
    simpa using congrArg List.length hsame
  constructor
  · simp [HandleUsers, hadm, getUsers]
  · simp [HandleUsers, hadm, getUsers, hsame, hlen]

/-- Witness for C8: `aliceStore` and a copy of it holding a different
password hash yield the same list-users response. -/
theorem handleUsers_redacts_password_hash_witness :
    aliceStore.map userJson =
      ([⟨"id1", "alice", "bcrypt$other", ROLE_ADMIN, some ["z1"]⟩] : Store).map
        userJson ∧
    (HandleUsers (some ⟨"root", ROLE_ADMIN⟩) aliceStore).response =
      (HandleUsers (some ⟨"root", ROLE_ADMIN⟩)
        [⟨"id1", "alice", "bcrypt$other", ROLE_ADMIN, some ["z1"]⟩]).response :=
  ⟨by decide,
   (handleUsers_redacts_password_hash (some ⟨"root", ROLE_ADMIN⟩) (by decide)
      aliceStore [⟨"id1", "alice", "bcrypt$other", ROLE_ADMIN, some ["z1"]⟩]
      (by decide)).2⟩

/-- C9 counterexample: the claim states that a create-user request
passing authorization, body parsing, role validation, hashing and
persistence responds with status 201.  On the code the success path
writes nothing, so the framework's implicit status 200 is sent: at a
concrete input that passes every stage (the record is persisted), the
status is 200, not 201. -/
theorem handleNewUser_success_status_not_201 :
    (HandleNewUser (some ⟨"root", ROLE_ADMIN⟩) []
        (some ⟨"alice", "pw1", ROLE_ADMIN, some ["z1"]⟩) "id1").store =
      [⟨"id1", "alice", "bcrypt$pw1", ROLE_ADMIN, some ["z1"]⟩] ∧
    (HandleNewUser (some ⟨"root", ROLE_ADMIN⟩) []
        (some ⟨"alice", "pw1", ROLE_ADMIN, some ["z1"]⟩) "id1").response.status
      = 200 ∧
    (HandleNewUser (some ⟨"root", ROLE_ADMIN⟩) []
        (some ⟨"alice", "pw1", ROLE_ADMIN, some ["z1"]⟩) "id1").response.status
      ≠ 201 := by
  decide

/-- C9 (amended): a create-user request that passes authorization, body
parsing, role validation, hashing and persistence responds with the
implicit success status 200 and an empty body, and the new record is
appended to the store. -/
theorem handleNewUser_success_implicit_200
    (i : Option Claims) (hadm : hasRole i ROLE_ADMIN = true)
    (s : Store) (p : NewUserBody) (nid : String)
    (hrole : p.role = ROLE_ADMIN ∨ p.role = ROLE_ZONE_ADMIN)
    (hnodup : s.any (fun v => v.username == p.username) = false) :
    (HandleNewUser i s (some p) nid).response = ⟨200, Body.empty⟩ := by
  have hzones : ∃ zs, (match p.zones with
      | none => some []
      | some zs => some zs) = some zs := by
    cases p.zones with
    | none => exact ⟨[], rfl⟩
    | some zs => exact ⟨zs, rfl⟩
  obtain ⟨zs, hzs⟩ := hzones
  cases hrole with
  | inl h =>
    simp [HandleNewUser, hadm, h, hashPassword, hzs, dbCreateUser, hnodup]
  | inr h =>
    simp [HandleNewUser, hadm, h, hashPassword, hzs, dbCreateUser, hnodup]

/-- Witness for C9 (amended): creating `dave` in `aliceStore`. -/
theorem handleNewUser_success_implicit_200_witness :
    aliceStore.any (fun v => v.username == "dave") = false ∧
    (HandleNewUser (some ⟨"root", ROLE_ADMIN⟩) aliceStore
        (some ⟨"dave", "pw4", ROLE_ZONE_ADMIN, some ["z9"]⟩) "id4").response =
      ⟨200, Body.empty⟩ :=
  ⟨by decide,
   handleNewUser_success_implicit_200 (some ⟨"root", ROLE_ADMIN⟩) (by decide)
     aliceStore ⟨"dave", "pw4", ROLE_ZONE_ADMIN, some ["z9"]⟩ "id4"
     (Or.inr rfl) (by decide)⟩

end Dman
